import Mathlib

set_option maxHeartbeats 1000000

/-!
Shallow embedding of the Kuzzle custom-policies plugin (src/lib/index.js).

The plugin exposes four pipe handlers: `assertCanUpdate` (pre-mutation
ownership check with a store round-trip), `addQueryFilter` (query rewriting
for search/count/deleteByQuery), `assertCanRead` (post-get ownership check)
and `filterMgetResult` (post-mGet result filtering), plus the shared private
deny helper `_denyRequest`.

JavaScript `undefined`-field access is modelled with `Option`; reading a
field of an absent object is a thrown `TypeError`, modelled as
`Except.error (.typeError _)`.  The node-style callback `callback(err, req)`
is modelled as `Except PluginError Request`.
-/

namespace KuzzlePolicies

/-- `request.context.user`: the requesting user. -/
structure User where
  _id : String
  profileIds : List String

/-- `request.input.resource`: the target of the operation. -/
structure Resource where
  index : String
  collection : String
  _id : String

/-- The request fields shared by every handler: the user, the resource
locator, and the controller/action names used in deny messages. -/
structure RequestInfo where
  user : User
  resource : Resource
  controller : String
  action : String

/-- `_kuzzle_info` document metadata. -/
structure KuzzleInfo where
  author : String

/-- A document body (`_source`): its `_kuzzle_info` metadata plus the
user-visible content fields (never inspected by the plugin). -/
structure Source where
  _kuzzle_info : KuzzleInfo
  content : List (String × String)

/-- Elasticsearch query objects as built and consumed by `addQueryFilter`:
a `term` leaf, or a `bool` node with optional `filter` and `must` fields. -/
inductive Query where
  | term (field : String) (value : String)
  | bool (filter : Option Query) (must : Option Query)

/-- Elasticsearch match semantics for the fragment of queries used here:
a document is a map from field names to values; `term` requires equality,
and the `filter` and `must` clauses of a `bool` node are both conjunctive. -/
def Query.matchesDoc (doc : String → String) : Query → Bool
  | .term f v => doc f == v
  | .bool none none => true
  | .bool (some q) none => q.matchesDoc doc
  | .bool none (some q) => q.matchesDoc doc
  | .bool (some q1) (some q2) => q1.matchesDoc doc && q2.matchesDoc doc

/-- An error raised by the store on the internal `document:get`. -/
structure StoreError where
  status : Nat
  message : String

/-- Errors surfaced through the pipe callback: synchronous JavaScript
`TypeError`s, the two errors built by `_denyRequest`, and store errors
propagated verbatim by `assertCanUpdate`. -/
inductive PluginError where
  | typeError (message : String)
  | unauthorizedError (message : String)
  | forbiddenError (message : String)
  | storeError (e : StoreError)

/-- The internal get request built by `assertCanUpdate` via
`new this.context.constructors.Request(...)`. -/
structure GetRequest where
  controller : String
  action : String
  index : String
  collection : String
  _id : String

/-- Outcome of `this.context.accessors.execute(getRequest)`: either the
fetched document's `_source`, or a rejection carrying a status code. -/
inductive StoreResult where
  | found (source : Source)
  | failed (e : StoreError)

/-- `_denyRequest`: the anonymous user sentinel `"-1"` gets an
`UnauthorizedError`, everyone else a `ForbiddenError`; both messages embed
index, collection, controller and action. -/
def denyError (info : RequestInfo) : PluginError :=
  if info.user._id == "-1" then
    .unauthorizedError ("Unauthorized action [" ++ info.resource.index ++ "/" ++
      info.resource.collection ++ "/" ++ info.controller ++ "/" ++ info.action ++
      "] for anonymous user")
  else
    .forbiddenError ("Forbidden action [" ++ info.resource.index ++ "/" ++
      info.resource.collection ++ "/" ++ info.controller ++ "/" ++ info.action ++
      "] for user " ++ info.user._id)

/-- Request shape seen by `assertCanUpdate` (update/replace/delete pipes). -/
structure MutationRequest where
  info : RequestInfo

/-- The get request `assertCanUpdate` sends to the store. -/
def mkGetRequest (req : MutationRequest) : GetRequest :=
  { controller := "document", action := "get",
    index := req.info.resource.index,
    collection := req.info.resource.collection,
    _id := req.info.resource._id }

/-- `assertCanUpdate`: admins pass through; otherwise fetch the target
document, deny when its author differs from the current user, allow when it
matches, allow on a 404 fetch error, and propagate any other fetch error. -/
def assertCanUpdate (store : GetRequest → StoreResult) (req : MutationRequest) :
    Except PluginError MutationRequest :=
  if req.info.user.profileIds.contains "admin" then .ok req
  else
    match store (mkGetRequest req) with
    | .found src =>
        if src._kuzzle_info.author != req.info.user._id then
          .error (denyError req.info)
        else .ok req
    | .failed e =>
        if e.status == 404 then .ok req
        else .error (.storeError e)

/-- `request.input.body` for query requests: at most a `query` field. -/
structure QueryBody where
  query : Option Query

/-- Request shape seen by `addQueryFilter` (count/search/deleteByQuery). -/
structure QueryRequest where
  info : RequestInfo
  body : Option QueryBody

/-- The `queryObject` literal built by `addQueryFilter`:
`bool.filter.bool.must.term._kuzzle_info.author = uid`, `bool.must` unset. -/
def queryObjectInit (uid : String) : Query :=
  .bool (some (.bool none (some (.term "_kuzzle_info.author" uid)))) none

/-- The mutation `queryObject.bool.must = m`. -/
def Query.setMust : Query → Option Query → Query
  | .bool filt _, m => .bool filt m
  | q, _ => q

/-- `addQueryFilter`: admins pass through.  Otherwise the code runs
`if (request.input.body) { request.input.body = {}; }` — a truthy body is
reset to the empty object — then reads `request.input.body.query` (a thrown
`TypeError` when the body is absent), grafts that query onto
`queryObject.bool.must` when present, and stores `queryObject` as
`request.input.body.query`. -/
def addQueryFilter (req : QueryRequest) : Except PluginError QueryRequest :=
  if req.info.user.profileIds.contains "admin" then .ok req
  else
    let queryObject := queryObjectInit req.info.user._id
    let body : Option QueryBody :=
      if req.body.isSome then some { query := none } else req.body
    match body with
    | none => .error (.typeError "Cannot read properties of undefined (reading query)")
    | some b =>
      let queryObject :=
        match b.query with
        | some inner => queryObject.setMust (some inner)
        | none => queryObject
      .ok { req with body := some { b with query := some queryObject } }

/-- `request.result` for a completed single get: the fetched document. -/
structure ReadResult where
  _source : Source

/-- Request shape seen by `assertCanRead` (after `document:get`). -/
structure ReadRequest where
  info : RequestInfo
  result : ReadResult

/-- `assertCanRead`: admins pass through; otherwise deny when the fetched
document's `_kuzzle_info.author` differs from the current user. -/
def assertCanRead (req : ReadRequest) : Except PluginError ReadRequest :=
  if req.info.user.profileIds.contains "admin" then .ok req
  else if req.result._source._kuzzle_info.author != req.info.user._id then
    .error (denyError req.info)
  else .ok req

/-- One element of an mGet result: document id, found flag, optional body. -/
structure Hit where
  _id : String
  found : Bool
  _source : Option Source

/-- `request.result` for a completed mGet. -/
structure MgetResult where
  hits : List Hit

/-- Request shape seen by `filterMgetResult` (after `document:mGet`). -/
structure MgetRequest where
  info : RequestInfo
  result : MgetResult

/-- The predicate `hit => hit._source._kuzzle_info.author === user._id`:
reading `_kuzzle_info` of an absent `_source` is a thrown `TypeError`. -/
def hitAuthorEq (uid : String) (hit : Hit) : Except PluginError Bool :=
  match hit._source with
  | none => .error (.typeError "Cannot read properties of undefined (reading _kuzzle_info)")
  | some src => .ok (src._kuzzle_info.author == uid)

/-- `Array.prototype.filter` with the (possibly throwing) ownership
predicate, evaluated left to right, aborting on the first throw. -/
def filterHits (uid : String) : List Hit → Except PluginError (List Hit)
  | [] => .ok []
  | hit :: rest =>
    match hitAuthorEq uid hit with
    | .error e => .error e
    | .ok keep =>
      match filterHits uid rest with
      | .error e => .error e
      | .ok tl => .ok (if keep then hit :: tl else tl)

/-- `filterMgetResult`: admins pass through; otherwise
`request.result.hits = request.result.hits.filter(...)` keeps exactly the
hits authored by the current user. -/
def filterMgetResult (req : MgetRequest) : Except PluginError MgetRequest :=
  if req.info.user.profileIds.contains "admin" then .ok req
  else
    match filterHits req.info.user._id req.result.hits with
    | .error e => .error e
    | .ok hits => .ok { req with result := { hits := hits } }

/-- Substring containment on strings, stated on the underlying character
lists: `needle` occurs contiguously inside `hay`. -/
def strContains (hay needle : String) : Prop :=
  ∃ pre post : List Char, pre ++ needle.data ++ post = hay.data

/-- The constraint a query body imposes on documents: an absent body or an
absent `query` field constrains nothing. -/
def bodyMatches (doc : String → String) : Option QueryBody → Bool
  | none => true
  | some b =>
    match b.query with
    | none => true
    | some q => q.matchesDoc doc

/-- The hits `filterMgetResult` keeps for user `uid`: the subsequence of
hits whose `_source._kuzzle_info.author` equals `uid`. -/
def ownHits (uid : String) (hits : List Hit) : List Hit :=
  hits.filter (fun hit => hit._source.any (fun s => s._kuzzle_info.author == uid))

/- Concrete fixtures used by counterexamples and witnesses. -/

def resA : Resource := { index := "myindex", collection := "mycol", _id := "doc1" }

def c1Info : RequestInfo :=
  { user := { _id := "u1", profileIds := ["standard"] },
    resource := resA, controller := "document", action := "search" }

def c1Req : QueryRequest :=
  { info := c1Info, body := some { query := some (.term "foo" "bar") } }

def c1Doc : String → String :=
  fun f => if f == "_kuzzle_info.author" then "u1" else "other"

def c3Req : QueryRequest := { info := c1Info, body := none }

def adminInfo : RequestInfo :=
  { user := { _id := "a1", profileIds := ["admin"] },
    resource := resA, controller := "document", action := "update" }

def failStore : GetRequest → StoreResult :=
  fun _ => .failed { status := 500, message := "backend down" }

def c4r1 : MutationRequest := { info := adminInfo }

def c4r2 : QueryRequest := { info := adminInfo, body := none }

def c4r3 : ReadRequest :=
  { info := adminInfo,
    result := { _source := { _kuzzle_info := { author := "someone" }, content := [] } } }

def c4r4 : MgetRequest :=
  { info := adminInfo,
    result := { hits := [{ _id := "d", found := false, _source := none }] } }

def c5Info : RequestInfo :=
  { user := { _id := "u2", profileIds := [] },
    resource := resA, controller := "document", action := "update" }

def c5Req : MutationRequest := { info := c5Info }

def srcU1 : Source := { _kuzzle_info := { author := "u1" }, content := [("title", "t")] }

def storeU1 : GetRequest → StoreResult := fun _ => .found srcU1

def c6Req : MutationRequest :=
  { info := { user := { _id := "u3", profileIds := [] },
              resource := resA, controller := "document", action := "delete" } }

def err500 : StoreError := { status := 500, message := "es down" }

def store500 : GetRequest → StoreResult := fun _ => .failed err500

def c8Req : ReadRequest :=
  { info := { user := { _id := "u1", profileIds := [] },
              resource := resA, controller := "document", action := "get" },
    result := { _source := { _kuzzle_info := { author := "u1" }, content := [] } } }

def c9Info : RequestInfo :=
  { user := { _id := "u9", profileIds := [] },
    resource := resA, controller := "document", action := "search" }

def c9Req : QueryRequest :=
  { info := c9Info, body := some { query := some (.term "foo" "bar") } }

def c9Req' : QueryRequest :=
  { info := c9Info, body := some { query := some (queryObjectInit "u9") } }

def hitOwn : Hit :=
  { _id := "d1", found := true,
    _source := some { _kuzzle_info := { author := "u1" }, content := [("a", "1")] } }

def hitOther : Hit :=
  { _id := "d2", found := true,
    _source := some { _kuzzle_info := { author := "u2" }, content := [("b", "2")] } }

def c2Info : RequestInfo :=
  { user := { _id := "u1", profileIds := [] },
    resource := resA, controller := "document", action := "mGet" }

def c2Req : MgetRequest := { info := c2Info, result := { hits := [hitOwn, hitOther] } }

def c10Req : MgetRequest :=
  { info := c2Info,
    result := { hits := [{ _id := "d1", found := false, _source := none }] } }

/- Helper lemmas. -/

theorem strData_append (a b : String) : (a ++ b).data = a.data ++ b.data := rfl

theorem filterHits_all_some (uid : String) (hits : List Hit)
    (h : ∀ hit ∈ hits, hit._source.isSome = true) :
    filterHits uid hits = .ok (hits.filter fun hit =>
      hit._source.any fun s => s._kuzzle_info.author == uid) := by
  induction hits with
  | nil => rfl
  | cons a t ih =>
    have ha : a._source.isSome = true := h a (List.mem_cons_self a t)
    cases hs : a._source with
    | none => rw [hs] at ha; simp at ha
    | some s =>
      have ht := ih (fun hit hm => h hit (List.mem_cons_of_mem a hm))
      cases hb : s._kuzzle_info.author == uid <;>
        simp [filterHits, hitAuthorEq, hs, ht, hb, List.filter_cons]

theorem filterHits_missing_source (uid : String) (hits : List Hit)
    (h : ∃ hit ∈ hits, hit._source = none) :
    filterHits uid hits =
      .error (.typeError "Cannot read properties of undefined (reading _kuzzle_info)") := by
  induction hits with
  | nil => simp at h
  | cons a t ih =>
    rcases h with ⟨hit, hmem, hnone⟩
    rcases List.mem_cons.mp hmem with heq | hmem'
    · subst heq
      simp [filterHits, hitAuthorEq, hnone]
    · cases ha : a._source with
      | none => simp [filterHits, hitAuthorEq, ha]
      | some s =>
        have ht := ih ⟨hit, hmem', hnone⟩
        simp [filterHits, hitAuthorEq, ha, ht]

/- Claim theorems. -/

/-- C1: for a non-privileged actor whose request carries an inner query,
`addQueryFilter` does NOT combine the inner filter with the ownership filter:
the body-reset line `if (request.input.body) request.input.body = \x7b\x7d`
clears the inbound body first, so the inner `term foo=bar` filter is dropped
and the rewritten body is the ownership-only filter; consequently a document
owned by the actor that violates the inner filter still matches the
rewritten query. This exhibits the code's divergence from the claim. -/
theorem addQueryFilter_drops_inner_filter :
    addQueryFilter c1Req =
      .ok { c1Req with body := some { query := some (queryObjectInit "u1") } } ∧
    Query.matchesDoc c1Doc (queryObjectInit "u1") = true ∧
    Query.matchesDoc c1Doc (.term "foo" "bar") = false :=
  ⟨rfl, rfl, rfl⟩

/-- C3: for a non-privileged actor whose request carries no body at all,
`addQueryFilter` does NOT succeed: the body-reset condition is inverted, so
an absent body is left absent and the subsequent read of
`request.input.body.query` throws a TypeError instead of producing an
ownership-only payload. This exhibits the code's divergence from the claim. -/
theorem addQueryFilter_throws_without_body :
    addQueryFilter c3Req =
      .error (.typeError "Cannot read properties of undefined (reading query)") :=
  rfl

/-- C4: for every actor whose profiles contain "admin", each of the four
operations returns its request unchanged with no error, and
`assertCanUpdate`'s result is the same for every store (no store read is
observable). The admin check is evaluated first: the theorem holds for
arbitrary request contents, including bodies whose processing would
otherwise throw. -/
theorem admin_ops_noop (store : GetRequest → StoreResult)
    (r1 : MutationRequest) (r2 : QueryRequest) (r3 : ReadRequest) (r4 : MgetRequest)
    (h1 : r1.info.user.profileIds.contains "admin" = true)
    (h2 : r2.info.user.profileIds.contains "admin" = true)
    (h3 : r3.info.user.profileIds.contains "admin" = true)
    (h4 : r4.info.user.profileIds.contains "admin" = true) :
    assertCanUpdate store r1 = .ok r1 ∧ addQueryFilter r2 = .ok r2 ∧
    assertCanRead r3 = .ok r3 ∧ filterMgetResult r4 = .ok r4 := by
  have m1 : "admin" ∈ r1.info.user.profileIds := by simpa using h1
  have m2 : "admin" ∈ r2.info.user.profileIds := by simpa using h2
  have m3 : "admin" ∈ r3.info.user.profileIds := by simpa using h3
  have m4 : "admin" ∈ r4.info.user.profileIds := by simpa using h4
  refine ⟨?_, ?_, ?_, ?_⟩ <;>
    simp [assertCanUpdate, addQueryFilter, assertCanRead, filterMgetResult, m1, m2, m3, m4]

/-- C4 witness: concrete admin requests, evaluated against a store that
always fails with status 500 (whose error never surfaces), with a body-less
query request and a source-less hit (which would throw for non-admins). -/
theorem admin_ops_noop_witness :
    assertCanUpdate failStore c4r1 = .ok c4r1 ∧ addQueryFilter c4r2 = .ok c4r2 ∧
    assertCanRead c4r3 = .ok c4r3 ∧ filterMgetResult c4r4 = .ok c4r4 :=
  admin_ops_noop failStore c4r1 c4r2 c4r3 c4r4 rfl rfl rfl rfl

/-- C5: for a non-privileged actor, when the store read of the target
document succeeds, `assertCanUpdate` passes the request through unchanged
when the fetched document's metadata author equals the actor's id, and
returns the shared deny error when they differ. -/
theorem assertCanUpdate_owner_decides (store : GetRequest → StoreResult)
    (req : MutationRequest) (src : Source)
    (hadm : req.info.user.profileIds.contains "admin" = false)
    (hstore : store (mkGetRequest req) = .found src) :
    (src._kuzzle_info.author = req.info.user._id →
      assertCanUpdate store req = .ok req) ∧
    (src._kuzzle_info.author ≠ req.info.user._id →
      assertCanUpdate store req = .error (denyError req.info)) := by
  have m : "admin" ∉ req.info.user.profileIds := by simpa using hadm
  refine ⟨fun h => ?_, fun h => ?_⟩ <;> simp [assertCanUpdate, m, hstore, h]

/-- C5 witness: actor "u2" requests an update of a document authored by
"u1"; the store read succeeds, the authors differ, and the request is
denied with the shared deny error. -/
theorem assertCanUpdate_owner_decides_witness :
    assertCanUpdate storeU1 c5Req = .error (denyError c5Req.info) :=
  (assertCanUpdate_owner_decides storeU1 c5Req srcU1 rfl rfl).2 (by decide)

/-- C6: for a non-privileged actor, when the store read fails,
`assertCanUpdate` allows the request unchanged when the failure status is
404 (not found), and otherwise surfaces exactly the store's error,
unchanged, substituting neither an allow nor a deny. -/
theorem assertCanUpdate_store_failure (store : GetRequest → StoreResult)
    (req : MutationRequest) (e : StoreError)
    (hadm : req.info.user.profileIds.contains "admin" = false)
    (hstore : store (mkGetRequest req) = .failed e) :
    (e.status = 404 → assertCanUpdate store req = .ok req) ∧
    (e.status ≠ 404 → assertCanUpdate store req = .error (.storeError e)) := by
  have m : "admin" ∉ req.info.user.profileIds := by simpa using hadm
  refine ⟨fun h => ?_, fun h => ?_⟩ <;> simp [assertCanUpdate, m, hstore, h]

/-- C6 witness: a status-500 store failure is propagated verbatim for a
non-privileged actor. -/
theorem assertCanUpdate_store_failure_witness :
    assertCanUpdate store500 c6Req = .error (.storeError err500) :=
  (assertCanUpdate_store_failure store500 c6Req err500 rfl rfl).2 (by decide)

/-- C7: whenever the deny decision is taken, the sentinel actor id "-1"
yields an Unauthorized (unauthenticated) error and every other actor id a
Forbidden error; in both cases the message contains the target index, the
collection, and the attempted action. -/
theorem denyRequest_kind_and_message (info : RequestInfo) :
    ∃ msg : String,
      (if info.user._id = "-1" then denyError info = .unauthorizedError msg
       else denyError info = .forbiddenError msg) ∧
      strContains msg info.resource.index ∧
      strContains msg info.resource.collection ∧
      strContains msg info.action := by
  by_cases h : info.user._id = "-1"
  · refine ⟨"Unauthorized action [" ++ info.resource.index ++ "/" ++
      info.resource.collection ++ "/" ++ info.controller ++ "/" ++ info.action ++
      "] for anonymous user", ?_, ?_, ?_, ?_⟩
    · simp [denyError, h]
    · exact ⟨("Unauthorized action [").data,
        ("/" ++ info.resource.collection ++ "/" ++ info.controller ++ "/" ++
          info.action ++ "] for anonymous user").data,
        by simp [strData_append]⟩
    · exact ⟨("Unauthorized action [" ++ info.resource.index ++ "/").data,
        ("/" ++ info.controller ++ "/" ++ info.action ++ "] for anonymous user").data,
        by simp [strData_append]⟩
    · exact ⟨("Unauthorized action [" ++ info.resource.index ++ "/" ++
          info.resource.collection ++ "/" ++ info.controller ++ "/").data,
        ("] for anonymous user").data,
        by simp [strData_append]⟩
  · refine ⟨"Forbidden action [" ++ info.resource.index ++ "/" ++
      info.resource.collection ++ "/" ++ info.controller ++ "/" ++ info.action ++
      "] for user " ++ info.user._id, ?_, ?_, ?_, ?_⟩
    · simp [denyError, h]
    · exact ⟨("Forbidden action [").data,
        ("/" ++ info.resource.collection ++ "/" ++ info.controller ++ "/" ++
          info.action ++ "] for user " ++ info.user._id).data,
        by simp [strData_append]⟩
    · exact ⟨("Forbidden action [" ++ info.resource.index ++ "/").data,
        ("/" ++ info.controller ++ "/" ++ info.action ++ "] for user " ++
          info.user._id).data,
        by simp [strData_append]⟩
    · exact ⟨("Forbidden action [" ++ info.resource.index ++ "/" ++
          info.resource.collection ++ "/" ++ info.controller ++ "/").data,
        ("] for user " ++ info.user._id).data,
        by simp [strData_append]⟩

/-- C8: for a non-privileged actor, `assertCanRead` passes the response
through unchanged exactly when the fetched document's metadata author
equals the actor's id, and returns the shared deny error otherwise; the
function consults no store. -/
theorem assertCanRead_owner_decides (req : ReadRequest)
    (hadm : req.info.user.profileIds.contains "admin" = false) :
    (req.result._source._kuzzle_info.author = req.info.user._id →
      assertCanRead req = .ok req) ∧
    (req.result._source._kuzzle_info.author ≠ req.info.user._id →
      assertCanRead req = .error (denyError req.info)) := by
  have m : "admin" ∉ req.info.user.profileIds := by simpa using hadm
  refine ⟨fun h => ?_, fun h => ?_⟩ <;> simp [assertCanRead, m, h]

/-- C8 witness: actor "u1" reads a document authored by "u1"; the response
passes through unchanged. -/
theorem assertCanRead_owner_decides_witness :
    assertCanRead c8Req = .ok c8Req :=
  (assertCanRead_owner_decides c8Req rfl).1 rfl

/-- C9: applying `addQueryFilter` a second time to a payload it has already
rewritten succeeds and yields a query matching exactly the same documents
as the once-rewritten query (here the rewrite is in fact literally
idempotent: the second pass reproduces the once-rewritten payload). -/
theorem addQueryFilter_idempotent (req req' : QueryRequest)
    (h : addQueryFilter req = .ok req') :
    ∃ req'' : QueryRequest, addQueryFilter req' = .ok req'' ∧
      ∀ doc : String → String,
        bodyMatches doc req''.body = bodyMatches doc req'.body := by
  by_cases m : "admin" ∈ req.info.user.profileIds
  · have hr : req' = req := by
      simp [addQueryFilter, m] at h
      exact h.symm
    subst hr
    exact ⟨req', by simp [addQueryFilter, m], fun doc => rfl⟩
  · cases hb : req.body with
    | none =>
      exfalso
      rw [addQueryFilter, if_neg (by simpa using m), hb] at h
      simp at h
    | some b =>
      have hr : req' =
          { req with body := some { query := some (queryObjectInit req.info.user._id) } } := by
        rw [addQueryFilter, if_neg (by simpa using m), hb] at h
        simp at h
        exact h.symm
      refine ⟨req', ?_, fun doc => rfl⟩
      rw [hr]
      rw [addQueryFilter, if_neg (by simpa using m)]
      simp

/-- C9 witness: a concrete once-rewritten request for actor "u9" is a fixed
point of `addQueryFilter`, and the twice-rewritten query constrains
documents exactly as the once-rewritten one does. -/
theorem addQueryFilter_idempotent_witness :
    ∃ req'' : QueryRequest, addQueryFilter c9Req' = .ok req'' ∧
      ∀ doc : String → String,
        bodyMatches doc req''.body = bodyMatches doc c9Req'.body :=
  addQueryFilter_idempotent c9Req c9Req' rfl

/-- C10: for a non-privileged actor, `filterMgetResult` dereferences
`_source._kuzzle_info.author` on the hits unconditionally, so any result
set containing a hit with no document body makes the operation fail with a
TypeError instead of producing a redacted result. -/
theorem filterMgetResult_errors_on_missing_source (req : MgetRequest)
    (hadm : req.info.user.profileIds.contains "admin" = false)
    (h : ∃ hit ∈ req.result.hits, hit._source = none) :
    filterMgetResult req =
      .error (.typeError "Cannot read properties of undefined (reading _kuzzle_info)") := by
  have m : "admin" ∉ req.info.user.profileIds := by simpa using hadm
  simp [filterMgetResult, m, filterHits_missing_source req.info.user._id req.result.hits h]

/-- C10 witness: a one-element result set whose hit has no `_source` makes
`filterMgetResult` fail with a TypeError for the non-privileged actor "u1". -/
theorem filterMgetResult_errors_on_missing_source_witness :
    filterMgetResult c10Req =
      .error (.typeError "Cannot read properties of undefined (reading _kuzzle_info)") :=
  filterMgetResult_errors_on_missing_source c10Req rfl
    ⟨{ _id := "d1", found := false, _source := none }, by simp [c10Req], rfl⟩

/-- C2 counterexample: actor "u1" mGets two found documents authored by
"u1" and "u2"; `filterMgetResult` returns a one-element hit list — the
non-owned element is removed outright, not replaced in place by a
not-found placeholder, so the output length differs from the input
length, refuting the claim as stated. -/
theorem filterMgetResult_not_length_preserving :
    filterMgetResult c2Req = .ok { c2Req with result := { hits := [hitOwn] } } ∧
    [hitOwn].length ≠ c2Req.result.hits.length :=
  ⟨rfl, by decide⟩

/-- C2 amended: for a non-privileged actor, when every hit carries a
document body, `filterMgetResult` returns the subsequence of hits whose
`_source._kuzzle_info.author` equals the actor's id, each kept unchanged
and in their original relative order; non-owned or not-found elements are
removed from the sequence rather than replaced by placeholders, so the
output can be shorter than the input. -/
theorem filterMgetResult_filters_by_author (req : MgetRequest)
    (hadm : req.info.user.profileIds.contains "admin" = false)
    (hsrc : ∀ hit ∈ req.result.hits, hit._source.isSome = true) :
    filterMgetResult req =
      .ok { req with result := { hits := ownHits req.info.user._id req.result.hits } } := by
  have m : "admin" ∉ req.info.user.profileIds := by simpa using hadm
  simp [filterMgetResult, ownHits, m,
    filterHits_all_some req.info.user._id req.result.hits hsrc]

/-- C2 amended witness: the two-document mGet of the counterexample
evaluates to the filtered subsequence keeping only the hit authored by
"u1". -/
theorem filterMgetResult_filters_by_author_witness :
    filterMgetResult c2Req =
      .ok { c2Req with result := { hits := ownHits c2Req.info.user._id c2Req.result.hits } } :=
  filterMgetResult_filters_by_author c2Req rfl (by decide)

end KuzzlePolicies
